import Mathlib

/-!
Shallow embedding of `homework.py`, a fitness-metrics module: a base
workout calculator (`Training`) with three variants (`Running`,
`SportsWalking`, `Swimming`), an `InfoMessage` record with a fixed-template
renderer, and a `read_package` dispatcher from workout codes to variants.

Python floats are modelled as exact rationals (ℚ); Python exceptions as a
`PyError` sum type, with fallible methods returning `Except PyError ℚ`.
Python `x // y` on floats is floored division, modelled with `Int.floor`;
it raises `ZeroDivisionError` when the divisor is zero, as does `/`.
-/

/-- Python exception kinds raised by the module, each carrying its message. -/
inductive PyError where
  | zeroDivisionError : String → PyError
  | notImplementedError : String → PyError
  | valueError : String → PyError
  | typeError : String → PyError
deriving DecidableEq

/-- Message of Python's `ZeroDivisionError` for `/` on floats. -/
def zeroDivMsg : String := "float division by zero"

/-- Message of Python's `ZeroDivisionError` for `//` on floats. -/
def floorDivMsg : String := "float floor division by zero"

/-- `Training.M_IN_KM`: meters per kilometer. -/
def M_IN_KM : ℚ := 1000

/-- `Training.LEN_STEP`: base step length (running/walking). -/
def LEN_STEP : ℚ := 0.65

/-- `Training.MIN_IN_H`: minutes per hour. -/
def MIN_IN_H : ℚ := 60

/-- Base workout calculator state: `Training.__init__`. -/
structure Training where
  action : ℚ
  duration_h : ℚ
  weight_kg : ℚ
deriving DecidableEq

/-- `Training.get_distance`: `action * LEN_STEP / M_IN_KM`. -/
def Training.get_distance (t : Training) : ℚ :=
  t.action * LEN_STEP / M_IN_KM

/-- `Training.get_mean_speed`: `get_distance() / duration_h`; Python raises
`ZeroDivisionError` when `duration_h` is zero. -/
def Training.get_mean_speed (t : Training) : Except PyError ℚ :=
  if t.duration_h = 0 then Except.error (PyError.zeroDivisionError zeroDivMsg)
  else Except.ok (t.get_distance / t.duration_h)

/-- Class name of the base calculator, as used in its error message. -/
def trainingClassName : String := "Training"

/-- The `NotImplementedError` message raised by `Training.get_spent_calories`
(the f-string interpolating the class name). -/
def notImplementedMsg (className : String) : String :=
  "Не реализован метод подсчета калорий в классе " ++ className

/-- `Training.get_spent_calories`: always raises `NotImplementedError`. -/
def Training.get_spent_calories (_t : Training) : Except PyError ℚ :=
  Except.error (PyError.notImplementedError (notImplementedMsg trainingClassName))

/-- `Running`: no extra fields beyond the base. -/
structure Running extends Training
deriving DecidableEq

/-- `Running.CALORIES_SPEED_MULTIPLIER`. -/
def Running.CALORIES_SPEED_MULTIPLIER : ℚ := 18

/-- `Running.CALORIES_SPEED_DEGREES`. -/
def Running.CALORIES_SPEED_DEGREES : ℚ := 20

/-- `Running.get_distance`: inherited from the base class. -/
def Running.get_distance (t : Running) : ℚ :=
  t.toTraining.get_distance

/-- `Running.get_spent_calories`:
`(18 * mean_speed - 20) * weight / M_IN_KM * (duration * MIN_IN_H)`,
propagating the division error from `get_mean_speed`. -/
def Running.get_spent_calories (t : Running) : Except PyError ℚ :=
  match t.toTraining.get_mean_speed with
  | Except.error e => Except.error e
  | Except.ok v => Except.ok
      ((Running.CALORIES_SPEED_MULTIPLIER * v - Running.CALORIES_SPEED_DEGREES)
        * t.weight_kg / M_IN_KM * (t.duration_h * MIN_IN_H))

/-- `SportsWalking`: adds `height_sm` (height in centimeters). -/
structure SportsWalking extends Training where
  height_sm : ℚ
deriving DecidableEq

/-- `SportsWalking.CALORIES_WEIGHT_MULTIPLIER`. -/
def SportsWalking.CALORIES_WEIGHT_MULTIPLIER : ℚ := 0.035

/-- `SportsWalking.CALORIES_SPEED_HEIGHT_MULTIPLIER`. -/
def SportsWalking.CALORIES_SPEED_HEIGHT_MULTIPLIER : ℚ :=
  0.029

/-- `SportsWalking.get_distance`: inherited from the base class. -/
def SportsWalking.get_distance (t : SportsWalking) : ℚ :=
  t.toTraining.get_distance

/-- `SportsWalking.get_spent_calories`:
`(0.035 * weight + ((mean_speed ** 2) // height) * 0.029 * weight)
  * (duration * MIN_IN_H)`; Python float `//` is floored division and raises
`ZeroDivisionError` on a zero divisor. -/
def SportsWalking.get_spent_calories (t : SportsWalking) : Except PyError ℚ :=
  match t.toTraining.get_mean_speed with
  | Except.error e => Except.error e
  | Except.ok v =>
      if t.height_sm = 0 then Except.error (PyError.zeroDivisionError floorDivMsg)
      else Except.ok
        ((SportsWalking.CALORIES_WEIGHT_MULTIPLIER * t.weight_kg
          + (⌊v ^ 2 / t.height_sm⌋ : ℚ)
            * SportsWalking.CALORIES_SPEED_HEIGHT_MULTIPLIER * t.weight_kg)
          * (t.duration_h * MIN_IN_H))

/-- `Swimming`: adds `length_pool_m` and `count_pool`. -/
structure Swimming extends Training where
  length_pool_m : ℚ
  count_pool : ℚ
deriving DecidableEq

/-- `Swimming.CALORIES_MEAN_SPEED_SHIFT`. -/
def Swimming.CALORIES_MEAN_SPEED_SHIFT : ℚ := 1.1

/-- `Swimming.CALORIES_WEIGHT_MULTIPLIER`. -/
def Swimming.CALORIES_WEIGHT_MULTIPLIER : ℚ := 2

/-- `Swimming.LEN_STEP`: overrides the base step-length constant. -/
def Swimming.LEN_STEP : ℚ := 1.38

/-- `Swimming.get_distance`: the base formula, but Python's dynamic attribute
lookup resolves `self.LEN_STEP` to the overridden `Swimming.LEN_STEP`. -/
def Swimming.get_distance (s : Swimming) : ℚ :=
  s.action * Swimming.LEN_STEP / M_IN_KM

/-- `Swimming.get_mean_speed`:
`length_pool * count_pool / M_IN_KM / duration_h`, raising
`ZeroDivisionError` when `duration_h` is zero. -/
def Swimming.get_mean_speed (s : Swimming) : Except PyError ℚ :=
  if s.duration_h = 0 then Except.error (PyError.zeroDivisionError zeroDivMsg)
  else Except.ok (s.length_pool_m * s.count_pool / M_IN_KM / s.duration_h)

/-- `Swimming.get_spent_calories`:
`(mean_speed + 1.1) * 2 * weight`, propagating the division error. -/
def Swimming.get_spent_calories (s : Swimming) : Except PyError ℚ :=
  match s.get_mean_speed with
  | Except.error e => Except.error e
  | Except.ok v => Except.ok
      ((v + Swimming.CALORIES_MEAN_SPEED_SHIFT)
        * Swimming.CALORIES_WEIGHT_MULTIPLIER * s.weight_kg)

/-- Result of the dispatcher: one of the three constructed variants. -/
inductive TrainingInstance where
  | swm : Swimming → TrainingInstance
  | run : Running → TrainingInstance
  | wlk : SportsWalking → TrainingInstance
deriving DecidableEq

/-- `right_keys_for_training` in `read_package`: the joined dict keys, in the
source's insertion order. -/
def valid_codes : String := "SWM, RUN, WLK"

/-- The `ValueError` message of `read_package` for an unknown code (the
f-string interpolating the code and the joined valid keys). -/
def unknownWorkoutMsg (workout_type : String) : String :=
  "Отсутствует такой тип тренировки как " ++ workout_type
    ++ ". Для корректной работы выберите другой вид тренировки: "
    ++ valid_codes

/-- Message of Python's `TypeError` when `*data` does not match the selected
constructor's arity. -/
def arityMsg : String := "wrong number of constructor arguments"

/-- `read_package`: checks the code against the dict keys first, raising
`ValueError` for an unknown code; otherwise constructs the variant from the
positional `data` list (a mismatched arity is Python's `TypeError`). -/
def read_package (workout_type : String) (data : List ℚ) :
    Except PyError TrainingInstance :=
  if workout_type = "SWM" then
    match data with
    | [a, d, w, l, c] => Except.ok (TrainingInstance.swm ⟨⟨a, d, w⟩, l, c⟩)
    | _ => Except.error (PyError.typeError arityMsg)
  else if workout_type = "RUN" then
    match data with
    | [a, d, w] => Except.ok (TrainingInstance.run ⟨⟨a, d, w⟩⟩)
    | _ => Except.error (PyError.typeError arityMsg)
  else if workout_type = "WLK" then
    match data with
    | [a, d, w, h] => Except.ok (TrainingInstance.wlk ⟨⟨a, d, w⟩, h⟩)
    | _ => Except.error (PyError.typeError arityMsg)
  else Except.error (PyError.valueError (unknownWorkoutMsg workout_type))

/-- The metrics record: `InfoMessage`'s five fields. -/
structure InfoMessage where
  training_type : String
  duration : ℚ
  distance : ℚ
  speed : ℚ
  calories : ℚ
deriving DecidableEq

/-- The digit character of `n % 10`. -/
def digitChar10 (n : ℕ) : Char := Char.ofNat (48 + n % 10)

/-- The three decimal digits of `m` (for `m < 1000`), zero-padded. -/
def natDigits3 (m : ℕ) : String :=
  String.mk [digitChar10 (m / 100), digitChar10 (m / 10), digitChar10 m]

/-- Python's `format(x, ".3f")` modelled over ℚ: round `x * 1000` to the
nearest integer and render sign, integer part, a dot and exactly three
fractional digits. (Exact decimal ties, which a binary float cannot
represent, round half up here rather than half to even.) -/
def formatFixed3 (q : ℚ) : String :=
  let n : ℤ := round (q * 1000)
  (if n < 0 then "-" else "") ++ toString (n.natAbs / 1000)
    ++ "." ++ natDigits3 (n.natAbs % 1000)

/-- `InfoMessage.get_message`: the fixed `MESSAGE` template instantiated with
the record's fields, each numeric field formatted `.3f`. A pure function:
deterministic, no side effects, total (no failure modes). -/
def InfoMessage.get_message (m : InfoMessage) : String :=
  "Тип тренировки: " ++ m.training_type
    ++ "; Длительность: " ++ formatFixed3 m.duration
    ++ " ч.; Дистанция: " ++ formatFixed3 m.distance
    ++ " км; Ср. скорость: " ++ formatFixed3 m.speed
    ++ " км/ч; Потрачено ккал: " ++ formatFixed3 m.calories
    ++ "."

/-- Recognizer for the `NotImplementedError` outcome of a calorie
computation. -/
def isNotImplError : Except PyError ℚ → Bool
  | Except.error (PyError.notImplementedError _) => true
  | _ => false

/-- Closed form of `Running.get_spent_calories` for a nonzero duration
(shared helper). -/
theorem running_calories_value (a d w : ℚ) (hd : d ≠ 0) :
    (Running.mk ⟨a, d, w⟩).get_spent_calories
      = Except.ok ((18 * (a * 0.65 / 1000 / d) - 20) * w / 1000 * (d * 60)) := by
  simp [Running.get_spent_calories, Training.get_mean_speed,
    Training.get_distance, Running.CALORIES_SPEED_MULTIPLIER,
    Running.CALORIES_SPEED_DEGREES, LEN_STEP, M_IN_KM, MIN_IN_H, hd]

/-- C1: for every Running calculator with action `a`, duration `d ≠ 0` and
weight `w`, the distance is `a * 0.65 / 1000`, the mean speed is that
distance over `d`, and `get_spent_calories` returns
`(18 * mean_speed - 20) * w / 1000 * (d * 60)`. -/
theorem running_calories_formula (a d w : ℚ) (hd : d ≠ 0) :
    (Running.mk ⟨a, d, w⟩).get_distance = a * 0.65 / 1000
    ∧ (Running.mk ⟨a, d, w⟩).toTraining.get_mean_speed
        = Except.ok (a * 0.65 / 1000 / d)
    ∧ (Running.mk ⟨a, d, w⟩).get_spent_calories
        = Except.ok ((18 * (a * 0.65 / 1000 / d) - 20) * w / 1000 * (d * 60)) := by
  refine ⟨rfl, ?_, running_calories_value a d w hd⟩
  simp [Training.get_mean_speed, Training.get_distance, LEN_STEP, M_IN_KM, hd]

/-- C1 witness: the spec's example, action 15000, duration 1 h, weight 75 kg:
distance 9.75 km, mean speed 9.75 km/h, calories 699.75. -/
theorem running_calories_formula_witness :
    (1 : ℚ) ≠ 0
    ∧ (Running.mk ⟨15000, 1, 75⟩).get_distance = 9.75
    ∧ (Running.mk ⟨15000, 1, 75⟩).toTraining.get_mean_speed = Except.ok 9.75
    ∧ (Running.mk ⟨15000, 1, 75⟩).get_spent_calories = Except.ok 699.75 := by
  have h := running_calories_formula 15000 1 75 (by norm_num)
  refine ⟨by norm_num, ?_, ?_, ?_⟩
  · rw [h.1]; norm_num
  · rw [h.2.1]; norm_num
  · rw [h.2.2]; norm_num

/-- C5: for every calculator, `get_mean_speed` is `get_distance / duration`;
with duration zero it fails with the division error, and with duration
nonzero the division is well-defined and the error branch unreachable. -/
theorem mean_speed_spec (t : Training) :
    (t.duration_h = 0 →
      t.get_mean_speed = Except.error (PyError.zeroDivisionError zeroDivMsg))
    ∧ (t.duration_h ≠ 0 →
      t.get_mean_speed = Except.ok (t.get_distance / t.duration_h)) := by
  constructor <;> intro h <;> simp [Training.get_mean_speed, h]

/-- C5 witness: zero duration yields the division error; duration 1 with
action 15000 yields the mean speed 9.75. -/
theorem mean_speed_spec_witness :
    Training.get_mean_speed ⟨100, 0, 70⟩
      = Except.error (PyError.zeroDivisionError zeroDivMsg)
    ∧ Training.get_mean_speed ⟨15000, 1, 75⟩ = Except.ok 9.75 := by
  constructor
  · exact (mean_speed_spec ⟨100, 0, 70⟩).1 rfl
  · rw [(mean_speed_spec ⟨15000, 1, 75⟩).2 (by norm_num)]
    norm_num [Training.get_distance, LEN_STEP, M_IN_KM]

/-- C6: the base calculator's `get_spent_calories` always raises the
not-implemented error naming the class, and never returns a value; each
variant overrides it, and no variant's result is a not-implemented error. -/
theorem base_calories_not_implemented :
    (∀ t : Training, t.get_spent_calories
      = Except.error (PyError.notImplementedError (notImplementedMsg trainingClassName)))
    ∧ (∀ r : Running, isNotImplError r.get_spent_calories = false)
    ∧ (∀ p : SportsWalking, isNotImplError p.get_spent_calories = false)
    ∧ (∀ s : Swimming, isNotImplError s.get_spent_calories = false) := by
  refine ⟨fun t => rfl, fun r => ?_, fun p => ?_, fun s => ?_⟩
  · by_cases h : r.toTraining.duration_h = 0 <;>
      simp [Running.get_spent_calories, Training.get_mean_speed, h, isNotImplError]
  · by_cases h : p.toTraining.duration_h = 0
    · simp [SportsWalking.get_spent_calories, Training.get_mean_speed, h, isNotImplError]
    · by_cases hh : p.height_sm = 0 <;>
        simp [SportsWalking.get_spent_calories, Training.get_mean_speed, h, hh,
          isNotImplError]
  · by_cases h : s.duration_h = 0 <;>
      simp [Swimming.get_spent_calories, Swimming.get_mean_speed, h, isNotImplError]

/-- C7: every calculator's distance is `action * step_length / 1000`, with
step length 0.65 for Running and SportsWalking and 1.38 for Swimming; in
particular Swimming with action 720 gives 0.9936 km. -/
theorem distance_formula :
    (∀ r : Running, r.get_distance = r.action * 0.65 / 1000)
    ∧ (∀ p : SportsWalking, p.get_distance = p.action * 0.65 / 1000)
    ∧ (∀ s : Swimming, s.get_distance = s.action * 1.38 / 1000)
    ∧ (Swimming.mk ⟨720, 1, 80⟩ 25 40).get_distance = 0.9936 := by
  refine ⟨fun r => rfl, fun p => rfl, fun s => rfl, ?_⟩
  norm_num [Swimming.get_distance, Swimming.LEN_STEP, M_IN_KM]

/-- C2: for every SportsWalking calculator with weight `w`, height `h ≠ 0`
and duration `d ≠ 0`, `get_spent_calories` returns
`(0.035 * w + (v ^ 2 // h) * 0.029 * w) * (d * 60)` where `v` is the base
mean speed `a * 0.65 / 1000 / d` and `//` is floored division. -/
theorem sports_walking_calories_formula (a d w h : ℚ) (hd : d ≠ 0) (hh : h ≠ 0) :
    (SportsWalking.mk ⟨a, d, w⟩ h).get_spent_calories
      = Except.ok ((0.035 * w
          + (⌊(a * 0.65 / 1000 / d) ^ 2 / h⌋ : ℚ) * 0.029 * w) * (d * 60)) := by
  simp [SportsWalking.get_spent_calories, Training.get_mean_speed,
    Training.get_distance, SportsWalking.CALORIES_WEIGHT_MULTIPLIER,
    SportsWalking.CALORIES_SPEED_HEIGHT_MULTIPLIER, LEN_STEP, M_IN_KM,
    MIN_IN_H, hd, hh]

/-- C2 witness: the spec's example, action 9000, duration 1 h, weight 75 kg,
height 180 cm: the floor term is `⌊5.85 ^ 2 / 180⌋ = 0` and the calories are
`0.035 * 75 * 60 = 157.5`. -/
theorem sports_walking_calories_formula_witness :
    (1 : ℚ) ≠ 0 ∧ (180 : ℚ) ≠ 0
    ∧ (⌊((9000 * 0.65 / 1000 / 1 : ℚ)) ^ 2 / 180⌋ : ℤ) = 0
    ∧ (SportsWalking.mk ⟨9000, 1, 75⟩ 180).get_spent_calories
        = Except.ok 157.5 := by
  have hfloor : (⌊((9000 * 0.65 / 1000 / 1 : ℚ)) ^ 2 / 180⌋ : ℤ) = 0 := by
    norm_num [Int.floor_eq_zero_iff]
  refine ⟨by norm_num, by norm_num, hfloor, ?_⟩
  rw [sports_walking_calories_formula 9000 1 75 180 (by norm_num) (by norm_num),
    hfloor]
  norm_num

/-- C3: for every Swimming calculator with pool length `l`, lap count `c`,
duration `d ≠ 0` and weight `w`, `get_mean_speed` returns `l * c / 1000 / d`
(for every action count, hence independent of it and of the step-length
constant), and `get_spent_calories` returns `(mean_speed + 1.1) * 2 * w`,
with no duration or minutes-per-hour factor. -/
theorem swimming_speed_calories_formula (a d w l c : ℚ) (hd : d ≠ 0) :
    (Swimming.mk ⟨a, d, w⟩ l c).get_mean_speed = Except.ok (l * c / 1000 / d)
    ∧ (Swimming.mk ⟨a, d, w⟩ l c).get_spent_calories
        = Except.ok ((l * c / 1000 / d + 1.1) * 2 * w) := by
  constructor <;>
    simp [Swimming.get_mean_speed, Swimming.get_spent_calories,
      Swimming.CALORIES_MEAN_SPEED_SHIFT, Swimming.CALORIES_WEIGHT_MULTIPLIER,
      M_IN_KM, hd]

/-- C3 witness: the spec's example, action 720, duration 1 h, weight 80 kg,
pool 25 m, 40 laps: mean speed 1.0 km/h, calories 336.0. -/
theorem swimming_speed_calories_formula_witness :
    (1 : ℚ) ≠ 0
    ∧ (Swimming.mk ⟨720, 1, 80⟩ 25 40).get_mean_speed = Except.ok 1
    ∧ (Swimming.mk ⟨720, 1, 80⟩ 25 40).get_spent_calories = Except.ok 336 := by
  have h := swimming_speed_calories_formula 720 1 80 25 40 (by norm_num)
  refine ⟨by norm_num, ?_, ?_⟩
  · rw [h.1]; norm_num
  · rw [h.2]; norm_num

/-- C9: two Swimming calculators agreeing on duration, weight, pool length
and lap count (but with any, possibly different, action counts) return equal
mean speeds and equal calories: neither operation depends on the action
count. -/
theorem swimming_action_independence (s1 s2 : Swimming)
    (hd : s1.duration_h = s2.duration_h) (hw : s1.weight_kg = s2.weight_kg)
    (hl : s1.length_pool_m = s2.length_pool_m)
    (hc : s1.count_pool = s2.count_pool) :
    s1.get_mean_speed = s2.get_mean_speed
    ∧ s1.get_spent_calories = s2.get_spent_calories := by
  have hms : s1.get_mean_speed = s2.get_mean_speed := by
    simp only [Swimming.get_mean_speed, hd, hw, hl, hc]
  refine ⟨hms, ?_⟩
  simp only [Swimming.get_spent_calories, hms, hw]

/-- C9 witness: two concrete swims differing only in action count (720 vs
9999) agree on mean speed and calories. -/
theorem swimming_action_independence_witness :
    (Swimming.mk ⟨720, 1, 80⟩ 25 40).get_mean_speed
      = (Swimming.mk ⟨9999, 1, 80⟩ 25 40).get_mean_speed
    ∧ (Swimming.mk ⟨720, 1, 80⟩ 25 40).get_spent_calories
      = (Swimming.mk ⟨9999, 1, 80⟩ 25 40).get_spent_calories :=
  swimming_action_independence (Swimming.mk ⟨720, 1, 80⟩ 25 40)
    (Swimming.mk ⟨9999, 1, 80⟩ 25 40) rfl rfl rfl rfl

/-- C10: every valid Running input (action ≥ 0, duration > 0, weight > 0)
whose mean speed is below 20/18 km/h yields a strictly negative calorie
value: the result is not guaranteed nonnegative. -/
theorem running_calories_can_be_negative (a d w : ℚ)
    (_ha : 0 ≤ a) (hd : 0 < d) (hw : 0 < w)
    (hv : a * 0.65 / 1000 / d < 20 / 18) :
    ∃ q, (Running.mk ⟨a, d, w⟩).get_spent_calories = Except.ok q ∧ q < 0 := by
  have hform := running_calories_value a d w (ne_of_gt hd)
  refine ⟨_, hform, ?_⟩
  have hneg : 18 * (a * 0.65 / 1000 / d) - 20 < 0 := by linarith
  have h1 : (18 * (a * 0.65 / 1000 / d) - 20) * w < 0 :=
    mul_neg_of_neg_of_pos hneg hw
  have h2 : (18 * (a * 0.65 / 1000 / d) - 20) * w / 1000 < 0 :=
    div_neg_of_neg_of_pos h1 (by norm_num)
  exact mul_neg_of_neg_of_pos h2 (by positivity)

/-- C10 witness: action 0, duration 1 h, weight 75 kg gives mean speed 0 and
a negative calorie value. -/
theorem running_calories_can_be_negative_witness :
    ∃ q, (Running.mk ⟨0, 1, 75⟩).get_spent_calories = Except.ok q ∧ q < 0 :=
  running_calories_can_be_negative 0 1 75 (by norm_num) (by norm_num)
    (by norm_num) (by norm_num)

/-- The dispatcher key for Swimming. -/
def code_SWM : String := "SWM"

/-- The dispatcher key for Running. -/
def code_RUN : String := "RUN"

/-- The dispatcher key for SportsWalking. -/
def code_WLK : String := "WLK"

/-- A sample unrecognized workout code. -/
def sampleBadCode : String := "XYZ"

/-- C4: for every workout code outside the three recognized keys and every
argument list, `read_package` returns the invalid-input (`ValueError`)
outcome — never a constructed instance — and its message names the offending
code and lists the three valid codes; each recognized code constructs the
corresponding variant from the positional arguments. -/
theorem read_package_dispatch (code : String) (data : List ℚ)
    (a d w h l c : ℚ)
    (h1 : code ≠ "SWM") (h2 : code ≠ "RUN") (h3 : code ≠ "WLK") :
    read_package code data
      = Except.error (PyError.valueError (unknownWorkoutMsg code))
    ∧ unknownWorkoutMsg code
        = "Отсутствует такой тип тренировки как " ++ code
          ++ ". Для корректной работы выберите другой вид тренировки: "
          ++ valid_codes
    ∧ valid_codes = "SWM, RUN, WLK"
    ∧ read_package code_SWM [a, d, w, l, c]
        = Except.ok (TrainingInstance.swm ⟨⟨a, d, w⟩, l, c⟩)
    ∧ read_package code_RUN [a, d, w]
        = Except.ok (TrainingInstance.run ⟨⟨a, d, w⟩⟩)
    ∧ read_package code_WLK [a, d, w, h]
        = Except.ok (TrainingInstance.wlk ⟨⟨a, d, w⟩, h⟩) := by
  refine ⟨?_, rfl, rfl, ?_, ?_, ?_⟩
  · simp [read_package, h1, h2, h3]
  · simp [read_package, code_SWM]
  · simp [read_package, code_RUN]
  · simp [read_package, code_WLK]

/-- C4 witness: the code `"XYZ"` with arbitrary data yields the `ValueError`
outcome, and `"RUN"` with three arguments yields a Running instance. -/
theorem read_package_dispatch_witness :
    read_package sampleBadCode [1, 2, 3]
      = Except.error (PyError.valueError (unknownWorkoutMsg sampleBadCode))
    ∧ read_package code_RUN [15000, 1, 75]
      = Except.ok (TrainingInstance.run ⟨⟨15000, 1, 75⟩⟩) := by
  have h := read_package_dispatch sampleBadCode [1, 2, 3] 15000 1 75 180 25 40
    (by decide) (by decide) (by decide)
  exact ⟨h.1, h.2.2.2.2.1⟩

/-- C8: for every metrics record, `get_message` is exactly the fixed template
instantiated with the record's fields, where each numeric field is rendered
by `formatFixed3` — whose output always ends in a dot followed by exactly
three decimal digits. As a total Lean function it is deterministic, has no
side effects and no failure modes. -/
theorem info_message_template (m : InfoMessage) (q : ℚ) :
    m.get_message
      = "Тип тренировки: " ++ m.training_type
        ++ "; Длительность: " ++ formatFixed3 m.duration
        ++ " ч.; Дистанция: " ++ formatFixed3 m.distance
        ++ " км; Ср. скорость: " ++ formatFixed3 m.speed
        ++ " км/ч; Потрачено ккал: " ++ formatFixed3 m.calories
        ++ "."
    ∧ (∃ ip : String, formatFixed3 q
          = ip ++ "." ++ natDigits3 ((round (q * 1000)).natAbs % 1000))
    ∧ (natDigits3 ((round (q * 1000)).natAbs % 1000)).length = 3 := by
  refine ⟨rfl, ?_, rfl⟩
  exact ⟨(if round (q * 1000) < 0 then "-" else "")
    ++ toString ((round (q * 1000)).natAbs / 1000), rfl⟩
